import Mathlib

/-!
# Verification of the graph-sampling core of `heterograph-preprocessing`

Shallow embedding of `src/train_mlp.py` (the driver: argument surface,
seeding, sampler dispatch) and `src/graphsampler/graph_sampler.py` (the
abstract `GraphSampler` base class).  The concrete sampler strategy
classes (`FullSampler`, `UniformNodeSampler`, ..., `MaskGcnSampler`) are
imported by the driver but their implementation files are not part of the
repository snapshot; their bodies are modelled from the specification,
each marked `Modelled from the spec:` in its doc comment.

Machine conventions: Python floats are modelled as `ℚ`; Python `None` as
`Option.none`; a Python exception as an `Except` error value; the ambient
global random state of the `random` / `numpy` / `torch` modules as an
explicit `GlobalRandomState` value threaded through the embedding.
-/

/-- A pseudo-random generator state (models one of the global Mersenne
generators; the exact stream is irrelevant to every claim, only that it is
a deterministic function of the seed). -/
structure Rng where
  state : Nat
deriving DecidableEq

/-- One LCG step, with explicit wraparound at `2 ^ 32`. -/
def Rng.step (r : Rng) : Rng :=
  ⟨(r.state * 1664525 + 1013904223) % 2 ^ 32⟩

/-- Modelled from the spec: "seeded Bernoulli trials per node/edge".  A
Bernoulli draw with success probability `p`: the current state yields a
fraction in `[0,1)`; the draw succeeds iff that fraction is `< p`.  The
comparison `frac/1000 < p` is written over `ℤ` to stay kernel-friendly. -/
def Rng.bernoulli (p : ℚ) (r : Rng) : Bool × Rng :=
  (decide (((r.state % 1000 : Nat) : ℤ) * (p.den : ℤ) < p.num * 1000), r.step)

/-- The ambient global random state: the `random`, `numpy.random`,
`torch` (CPU) and `torch.cuda` generators, plus the torch thread count
(touched by `set_seeds` via `torch.set_num_threads(1)`). -/
structure GlobalRandomState where
  python : Rng
  numpy : Rng
  torchCpu : Rng
  torchCuda : Rng
  numThreads : Nat
deriving DecidableEq

/-- The global state right after `set_seeds()` ran: every generator seeded
with the hard-coded constant 42. -/
def seeded42 : GlobalRandomState :=
  ⟨⟨42⟩, ⟨42⟩, ⟨42⟩, ⟨42⟩, 1⟩

/-- The graph data model (spec section 3): nodes carry an identity,
a label and an opaque feature reference; edges are ordered pairs with a
graph-level `directed` flag.  `labels` and `feats` are association lists
keyed by node identity. -/
structure Graph where
  nodes : List Nat
  edges : List (Nat × Nat)
  directed : Bool
  labels : List (Nat × Nat)
  feats : List (Nat × Nat)
deriving DecidableEq

/-- Out-neighbours, plus in-neighbours when the graph is undirected
(spec section 3: an undirected edge is traversable in both directions
without a duplicate entry). -/
def Graph.neighbors (g : Graph) (u : Nat) : List Nat :=
  ((g.edges.filter (fun e => e.1 == u)).map Prod.snd) ++
    (if g.directed then [] else (g.edges.filter (fun e => e.2 == u)).map Prod.fst)

/-- Degree of a node = number of incident traversable edges. -/
def Graph.degree (g : Graph) (u : Nat) : Nat :=
  (g.neighbors u).length

/-- Node-induced subgraph (spec section 4.1): keep the nodes of `keep`,
and the edges with both endpoints kept; labels and features restricted to
the kept nodes, identities preserved. -/
def Graph.inducedOnNodes (g : Graph) (keep : List Nat) : Graph :=
  { nodes := g.nodes.filter (fun v => keep.contains v)
    edges := g.edges.filter (fun e => keep.contains e.1 && keep.contains e.2)
    directed := g.directed
    labels := g.labels.filter (fun kv => keep.contains kv.1)
    feats := g.feats.filter (fun kv => keep.contains kv.1) }

/-- Edge-induced subgraph (spec section 4.1): keep the given edges; the
node set is the set of endpoints of retained edges (degree-zero nodes are
dropped); labels and features restricted accordingly. -/
def Graph.fromEdgeSubset (g : Graph) (kept : List (Nat × Nat)) : Graph :=
  let touched := ((kept.map Prod.fst) ++ (kept.map Prod.snd)).dedup
  { nodes := g.nodes.filter (fun v => touched.contains v)
    edges := kept
    directed := g.directed
    labels := g.labels.filter (fun kv => touched.contains kv.1)
    feats := g.feats.filter (fun kv => touched.contains kv.1) }

/-- The dataset object handed to the driver.  Modelled from the spec:
`HomogenousNodeClsDataset` is not under `src/`; the driver reads its
`graph` and `directed` members and calls `set_sampled_graph` on it
("the caller ... substitutes it for the original graph in all downstream
use"). -/
structure Dataset where
  graph : Graph
  directed : Bool
  sampledGraph : Option Graph
deriving DecidableEq

/-- Modelled from the spec: `dataset.set_sampled_graph(g)` (the `datasets`
module is not under `src/`) records the sampled graph for downstream use,
leaving the original graph intact. -/
def Dataset.set_sampled_graph (d : Dataset) (g : Graph) : Dataset :=
  { d with sampledGraph := some g }

/-- Python exceptions observable in the sampling path.  The driver itself
can only raise `unboundLocal` (reading the never-assigned local `sampler`);
`configurationError` and `ioError` are the spec's taxonomy, produced only
by the spec-modelled `MaskGcnSampler`. -/
inductive PyErr where
  | unboundLocal (name : String)
  | configurationError (msg : String)
  | ioError (msg : String)
deriving DecidableEq

/-- `true` iff an outcome is a raised `ConfigurationError`. -/
def isConfigurationError : Except PyErr Unit → Bool
  | .error (.configurationError _) => true
  | _ => false

/-- The argument record produced by `parse_arguments` (src/train_mlp.py
lines 34-59): one field per `add_argument`, Python floats as `ℚ`,
unset `str` options as `none`.  `argparse` only type-converts; it
performs no range validation. -/
structure Args where
  device : Int
  dataset : String
  log_dir : Option String
  checkpoint_dir : Option String
  batch_size : Nat
  neighbours : Int
  num_workers : Nat
  num_epochs : Nat
  hidden_dim : Nat
  lr : ℚ
  log_every : Nat
  gnn_layers : Nat
  predictor_layers : Nat
  sampler : String
  method : String
  prob : ℚ
  homophilic_prob : ℚ
  p_f : ℚ
  dropout : ℚ
  mask_path : Option String
deriving DecidableEq

/-- The defaults declared in `parse_arguments`. -/
def defaultArgs : Args :=
  { device := 0
    dataset := "ogbn-arxiv"
    log_dir := none
    checkpoint_dir := none
    batch_size := 1024
    neighbours := 10
    num_workers := 2
    num_epochs := 100
    hidden_dim := 256
    lr := mkRat 1 1000
    log_every := 1
    gnn_layers := 3
    predictor_layers := 3
    sampler := "full"
    method := "higher"
    prob := mkRat 1 2
    homophilic_prob := mkRat 1 2
    p_f := mkRat 1 2
    dropout := 0
    mask_path := none }

namespace GraphSampler

/-- `GraphSampler.sample_graph` exactly as written in
`src/graphsampler/graph_sampler.py` lines 19-20: the body is `pass`, so
the call returns Python `None` for every input graph — despite the
docstring above it promising the sampled `dgl.Graph`. -/
def sample_graph (original_graph : Graph) : Option Graph :=
  none

end GraphSampler

/-- Modelled from the spec (section 4.2, `FullSampler` implementation file
absent from `src/`): "Returns the original graph unchanged." -/
def FullSampler.sample (g : Graph) (r : Rng) : Graph × Rng :=
  (g, r)

/-- Modelled from the spec (section 4.3, implementation file absent from
`src/`): each node is independently retained with probability `p` by a
draw from the ambient generator, in node order; the result is the
node-induced subgraph over the retained nodes. -/
def UniformNodeSampler.sample (p : ℚ) (g : Graph) (r : Rng) : Graph × Rng :=
  let t := g.nodes.foldl
    (fun (acc : List Nat × Rng) v =>
      let b := Rng.bernoulli p acc.2
      (if b.1 then acc.1 ++ [v] else acc.1, b.2))
    ([], r)
  (g.inducedOnNodes t.1, t.2)

/-- Modelled from the spec (section 4.4, implementation file absent from
`src/`): one independent coin per edge entry — the data model stores a
single entry per undirected edge, so an undirected edge gets a single
flip and both logical directions survive or die together. -/
def UniformEdgeSampler.sample (p : ℚ) (directed : Bool) (g : Graph) (r : Rng) :
    Graph × Rng :=
  let t := g.edges.foldl
    (fun (acc : List (Nat × Nat) × Rng) e =>
      let b := Rng.bernoulli p acc.2
      (if b.1 then acc.1 ++ [e] else acc.1, b.2))
    ([], r)
  (g.fromEdgeSubset t.1, t.2)

/-- Insert `v` into a degree-ordered list (descending when `higher`). -/
def insertByDeg (higher : Bool) (g : Graph) (v : Nat) : List Nat → List Nat
  | [] => [v]
  | w :: ws =>
    if (if higher then g.degree w ≤ g.degree v else g.degree v ≤ g.degree w)
    then v :: w :: ws
    else w :: insertByDeg higher g v ws

/-- Nodes sorted by degree, most-preferred first. -/
def sortByDeg (higher : Bool) (g : Graph) : List Nat :=
  g.nodes.foldr (insertByDeg higher g) []

/-- Target retained count derived from `p`: `⌈p · n⌉` computed over the
rational's numerator and denominator. -/
def quotaOf (p : ℚ) (n : Nat) : Nat :=
  (((p * (n : ℚ)).num + ((p * (n : ℚ)).den : ℤ) - 1) / ((p * (n : ℚ)).den : ℤ)).toNat

/-- Modelled from the spec (section 4.5, implementation file absent from
`src/`): retention biased toward high (`method = "higher"`) or low
degree; the exact scaling function is an implementation choice (spec
sections 4.5 and 9) — this model retains the top `⌈p·N⌉` nodes of the
degree ordering. -/
def DegreeNodeSampler.sample (p : ℚ) (method : String) (g : Graph) (r : Rng) :
    Graph × Rng :=
  let ordered := sortByDeg (method == "higher") g
  (g.inducedOnNodes (ordered.take (quotaOf p g.nodes.length)), r)

/-- Insert an edge into a list ordered by endpoint-degree sum. -/
def insertEdgeByDeg (higher : Bool) (g : Graph) (e : Nat × Nat) :
    List (Nat × Nat) → List (Nat × Nat)
  | [] => [e]
  | f :: fs =>
    if (if higher then g.degree f.1 + g.degree f.2 ≤ g.degree e.1 + g.degree e.2
        else g.degree e.1 + g.degree e.2 ≤ g.degree f.1 + g.degree f.2)
    then e :: f :: fs
    else f :: insertEdgeByDeg higher g e fs

/-- Modelled from the spec (section 4.6, implementation file absent from
`src/`): the bias of 4.5 applied to edges via the sum of endpoint
degrees; single entry per undirected edge keeps the 4.4 symmetry rule. -/
def DegreeEdgeSampler.sample (p : ℚ) (method : String) (directed : Bool)
    (g : Graph) (r : Rng) : Graph × Rng :=
  let ordered := g.edges.foldr (insertEdgeByDeg (method == "higher") g) []
  (g.fromEdgeSubset (ordered.take (quotaOf p g.edges.length)), r)

/-- Label lookup in the association list. -/
def Graph.labelOf (g : Graph) (v : Nat) : Option Nat :=
  (g.labels.find? (fun kv => kv.1 == v)).map Prod.snd

/-- An edge is homophilic iff both endpoints are labelled and the labels
agree; an edge touching an unlabelled node counts as heterophilic
(spec section 4.7). -/
def Graph.homophilic (g : Graph) (e : Nat × Nat) : Bool :=
  match g.labelOf e.1, g.labelOf e.2 with
  | some a, some b => a == b
  | _, _ => false

/-- Modelled from the spec (section 4.7, implementation file absent from
`src/`): homophilic edges retained with probability `homophilic_prob`,
heterophilic edges with probability `p` (the spec leaves the exact
`p`/`homophilic_prob` interaction as a design decision; this model treats
`p` as the heterophilic retention probability). -/
def LabelEdgeSampler.sample (p homophilic_prob : ℚ) (directed : Bool)
    (g : Graph) (r : Rng) : Graph × Rng :=
  let t := g.edges.foldl
    (fun (acc : List (Nat × Nat) × Rng) e =>
      let q := if g.homophilic e then homophilic_prob else p
      let b := Rng.bernoulli q acc.2
      (if b.1 then acc.1 ++ [e] else acc.1, b.2))
    ([], r)
  (g.fromEdgeSubset t.1, t.2)

/-- One ignition pass of the forest fire (spec section 4.8): walk the
neighbour list of the node being burned; each neighbour still unvisited
is ignited independently with probability `p_f`.  Returns the remaining
unvisited nodes, the newly ignited nodes (in ignition order) and the
generator. -/
def igniteNeighbors (p_f : ℚ) : List Nat → List Nat → Rng →
    List Nat × List Nat × Rng
  | [], unvisited, r => (unvisited, [], r)
  | v :: vs, unvisited, r =>
    if v ∈ unvisited then
      let b := Rng.bernoulli p_f r
      if b.1 then
        let t := igniteNeighbors p_f vs (unvisited.erase v) b.2
        (t.1, v :: t.2.1, t.2.2)
      else igniteNeighbors p_f vs unvisited b.2
    else igniteNeighbors p_f vs unvisited r

/-- The remaining-unvisited part and the newly-ignited part of one
ignition pass together are a permutation of the unvisited nodes it
started from: ignition moves nodes, it never duplicates or invents
them. -/
theorem ignite_perm (p_f : ℚ) (vs unvisited : List Nat) (r : Rng) :
    ((igniteNeighbors p_f vs unvisited r).1 ++
      (igniteNeighbors p_f vs unvisited r).2.1).Perm unvisited := by
  induction vs generalizing unvisited r with
  | nil => simp [igniteNeighbors]
  | cons v vs ih =>
    by_cases hv : v ∈ unvisited
    · by_cases hb : (Rng.bernoulli p_f r).1
      · have h1 := ih (unvisited.erase v) (Rng.bernoulli p_f r).2
        simp only [igniteNeighbors, hv, if_true, hb]
        exact List.perm_middle.trans ((h1.cons v).trans (List.perm_cons_erase hv).symm)
      · simpa only [igniteNeighbors, hv, if_true, hb, if_false] using
          ih unvisited (Rng.bernoulli p_f r).2
    · simpa only [igniteNeighbors, hv, if_false] using ih unvisited r

/-- Length form of `ignite_perm`. -/
theorem ignite_length (p_f : ℚ) (vs unvisited : List Nat) (r : Rng) :
    (igniteNeighbors p_f vs unvisited r).1.length +
      (igniteNeighbors p_f vs unvisited r).2.1.length = unvisited.length := by
  have h := (ignite_perm p_f vs unvisited r).length_eq
  simpa [List.length_append] using h

/-- One fire (spec section 4.8): burn from the frontier until it
extinguishes.  The head of the frontier is dequeued, its unvisited
neighbours are ignited with probability `p_f` each, and the newly ignited
nodes are appended to the frontier.  Returns the burn order of this fire,
the remaining unvisited nodes, and the generator.  Termination: every
recursive call strictly decreases `unvisited.length + frontier.length` —
a dequeue costs one frontier slot and every enqueue removes a node from
`unvisited`. -/
def burn (g : Graph) (p_f : ℚ) (unvisited frontier : List Nat) (r : Rng) :
    List Nat × List Nat × Rng :=
  match frontier with
  | [] => ([], unvisited, r)
  | u :: rest =>
    let t := igniteNeighbors p_f (g.neighbors u) unvisited r
    let res := burn g p_f t.1 (rest ++ t.2.1) t.2.2
    (t.2.1 ++ res.1, res.2.1, res.2.2)
termination_by unvisited.length + frontier.length
decreasing_by
  simp_wf
  have h := ignite_length p_f (g.neighbors w) unvisited r
  omega


theorem burn_cons (g : Graph) (p_f : ℚ) (unvisited : List Nat) (u : Nat)
    (rest : List Nat) (r : Rng) :
    burn g p_f unvisited (u :: rest) r =
      (let t := igniteNeighbors p_f (g.neighbors u) unvisited r
       let res := burn g p_f t.1 (rest ++ t.2.1) t.2.2
       (t.2.1 ++ res.1, res.2.1, res.2.2)) := by
  rw [burn]

theorem burn_perm (g : Graph) (p_f : ℚ) (unvisited frontier : List Nat) (r : Rng) :
    ((burn g p_f unvisited frontier r).2.1 ++
      (burn g p_f unvisited frontier r).1).Perm unvisited := by
  induction unvisited, frontier, r using burn.induct g p_f with
  | case1 unvisited r => simp [burn]
  | case2 unvisited r u rest t ih =>
    rw [burn_cons]
    dsimp only at ih ⊢
    have hig := ignite_perm p_f (g.neighbors u) unvisited r
    refine List.Perm.trans ?_ hig
    refine List.Perm.trans ?_ (ih.append_right _)
    have h1 := List.Perm.append_left
      (burn g p_f (igniteNeighbors p_f (g.neighbors u) unvisited r).1
        (rest ++ (igniteNeighbors p_f (g.neighbors u) unvisited r).2.1)
        (igniteNeighbors p_f (g.neighbors u) unvisited r).2.2).2.1
      (@List.perm_append_comm Nat
        (igniteNeighbors p_f (g.neighbors u) unvisited r).2.1
        (burn g p_f (igniteNeighbors p_f (g.neighbors u) unvisited r).1
          (rest ++ (igniteNeighbors p_f (g.neighbors u) unvisited r).2.1)
          (igniteNeighbors p_f (g.neighbors u) unvisited r).2.2).1)
    simpa [List.append_assoc] using h1


/-- Length form of `burn_perm`: the fire burns exactly the nodes that left
the unvisited pool. -/
theorem burn_length (g : Graph) (p_f : ℚ) (unvisited frontier : List Nat) (r : Rng) :
    (burn g p_f unvisited frontier r).2.1.length +
      (burn g p_f unvisited frontier r).1.length = unvisited.length := by
  have h := (burn_perm g p_f unvisited frontier r).length_eq
  simpa [List.length_append] using h

/-- The outer forest-fire loop (spec section 4.8): while the retained
quota is unmet and unvisited nodes remain, pick the least unvisited node
as a fresh seed, burn from it, and repeat.  Returns the total burn order
(seeds included), the remaining unvisited nodes, and the generator. -/
def forestFireLoop (g : Graph) (p_f : ℚ) (quota : Nat)
    (unvisited : List Nat) (burnedCount : Nat) (r : Rng) :
    List Nat × List Nat × Rng :=
  if quota ≤ burnedCount then ([], unvisited, r)
  else
    match unvisited with
    | [] => ([], [], r)
    | s :: rest =>
      let t := burn g p_f rest [s] r
      let res := forestFireLoop g p_f quota t.2.1 (burnedCount + 1 + t.1.length) t.2.2
      (s :: (t.1 ++ res.1), res.2.1, res.2.2)
termination_by unvisited.length
decreasing_by
  simp_wf
  have h := burn_length g p_f ws [w] r
  omega

/-- Unfolding equation for the seed case of `forestFireLoop`. -/
theorem forestFireLoop_cons (g : Graph) (p_f : ℚ) (quota : Nat) (s : Nat)
    (rest : List Nat) (burnedCount : Nat) (r : Rng)
    (h : ¬ quota ≤ burnedCount) :
    forestFireLoop g p_f quota (s :: rest) burnedCount r =
      (let t := burn g p_f rest [s] r
       let res := forestFireLoop g p_f quota t.2.1 (burnedCount + 1 + t.1.length) t.2.2
       (s :: (t.1 ++ res.1), res.2.1, res.2.2)) := by
  rw [forestFireLoop.eq_def]
  simp [h]

/-- The remaining unvisited nodes and the total burn order of the loop
together are a permutation of the unvisited nodes it started from. -/
theorem forestFireLoop_perm (g : Graph) (p_f : ℚ) (quota : Nat)
    (unvisited : List Nat) (burnedCount : Nat) (r : Rng) :
    ((forestFireLoop g p_f quota unvisited burnedCount r).2.1 ++
      (forestFireLoop g p_f quota unvisited burnedCount r).1).Perm unvisited := by
  induction unvisited, burnedCount, r using forestFireLoop.induct g p_f quota with
  | case1 unvisited burnedCount r h =>
    rw [forestFireLoop.eq_def]
    simp [h]
  | case2 burnedCount r h =>
    rw [forestFireLoop.eq_def]
    simp [h]
  | case3 burnedCount r h s rest t ih =>
    rw [forestFireLoop_cons g p_f quota s rest burnedCount r h]
    dsimp only at ih ⊢
    set res := forestFireLoop g p_f quota t.2.1 (burnedCount + 1 + t.1.length) t.2.2 with hres
    have hb := burn_perm g p_f rest [s] r
    have h1 : (res.2.1 ++ (t.1 ++ res.1)).Perm ((res.2.1 ++ res.1) ++ t.1) := by
      have h2 := List.Perm.append_left res.2.1
        (@List.perm_append_comm Nat t.1 res.1)
      simpa [List.append_assoc] using h2
    exact List.perm_middle.trans ((h1.trans ((ih.append_right t.1).trans hb)).cons s)

/-- The full forest-fire run on a graph: quota `⌈p·N⌉`, unvisited pool =
the node list, no nodes burned yet. -/
def ForestFireSampler.run (p p_f : ℚ) (g : Graph) (r : Rng) :
    List Nat × List Nat × Rng :=
  forestFireLoop g p_f (quotaOf p g.nodes.length) g.nodes 0 r

/-- The chronological list of nodes burned by a forest-fire run. -/
def ForestFireSampler.burnOrder (p p_f : ℚ) (g : Graph) (r : Rng) : List Nat :=
  (ForestFireSampler.run p p_f g r).1

/-- Modelled from the spec (section 4.8, implementation file absent from
`src/`): the sampled graph is the node-induced subgraph over the burned
nodes. -/
def ForestFireSampler.sample (p p_f : ℚ) (g : Graph) (r : Rng) : Graph × Rng :=
  (g.inducedOnNodes (ForestFireSampler.burnOrder p p_f g r),
    (ForestFireSampler.run p p_f g r).2.2)

/-- Modelled from the spec (section 4.9, implementation file absent from
`src/`): read the node mask from `mask_path` (the file system is the
`fs` argument), fail with `ConfigurationError` when the path is missing
or the mask cardinality does not match the node count, with `IOError`
when the file is unreadable, and otherwise retain exactly the masked-in
nodes. -/
def MaskGcnSampler.sample (fs : String → Option (List Bool))
    (mask_path : Option String) (p : ℚ) (g : Graph) (r : Rng) :
    Except PyErr (Graph × Rng) :=
  match mask_path with
  | none => .error (.configurationError "mask_path is required for mask_gcn")
  | some path =>
    match fs path with
    | none => .error (.ioError "mask file unreadable")
    | some mask =>
      if mask.length = g.nodes.length then
        .ok (g.inducedOnNodes (((g.nodes.zip mask).filter Prod.snd).map Prod.fst), r)
      else .error (.configurationError "mask cardinality mismatch")

/-- One constructor per concrete sampler class, with exactly the fields
the driver's keyword arguments supply (src/train_mlp.py lines 70-86). -/
inductive SamplerInstance where
  | fullSampler (graph_save_dir : Option String)
  | uniformEdgeSampler (p : ℚ) (graph_save_dir : Option String) (directed : Bool)
  | uniformNodeSampler (p : ℚ) (graph_save_dir : Option String)
  | degreeNodeSampler (p : ℚ) (graph_save_dir : Option String) (method : String)
  | degreeEdgeSampler (p : ℚ) (graph_save_dir : Option String) (method : String)
      (directed : Bool)
  | labelEdgeSampler (p : ℚ) (homophilic_prob : ℚ) (graph_save_dir : Option String)
      (directed : Bool)
  | forestFireSampler (p : ℚ) (p_f : ℚ) (graph_save_dir : Option String)
  | maskGcnSampler (mask_path : Option String) (p : ℚ) (graph_save_dir : Option String)
deriving DecidableEq

/-- An invocation `sampler.sample_graph(graph)`: the sampler receives the
graph as its only argument and draws its randomness from the ambient
global state (the samplers consume the `numpy` generator). -/
def SamplerInstance.sample (fs : String → Option (List Bool)) :
    SamplerInstance → Graph → GlobalRandomState →
      Except PyErr (Graph × GlobalRandomState)
  | .fullSampler _, g, s =>
    let t := FullSampler.sample g s.numpy
    .ok (t.1, { s with numpy := t.2 })
  | .uniformEdgeSampler p _ directed, g, s =>
    let t := UniformEdgeSampler.sample p directed g s.numpy
    .ok (t.1, { s with numpy := t.2 })
  | .uniformNodeSampler p _, g, s =>
    let t := UniformNodeSampler.sample p g s.numpy
    .ok (t.1, { s with numpy := t.2 })
  | .degreeNodeSampler p _ method, g, s =>
    let t := DegreeNodeSampler.sample p method g s.numpy
    .ok (t.1, { s with numpy := t.2 })
  | .degreeEdgeSampler p _ method directed, g, s =>
    let t := DegreeEdgeSampler.sample p method directed g s.numpy
    .ok (t.1, { s with numpy := t.2 })
  | .labelEdgeSampler p hp _ directed, g, s =>
    let t := LabelEdgeSampler.sample p hp directed g s.numpy
    .ok (t.1, { s with numpy := t.2 })
  | .forestFireSampler p p_f _, g, s =>
    let t := ForestFireSampler.sample p p_f g s.numpy
    .ok (t.1, { s with numpy := t.2 })
  | .maskGcnSampler mp p _, g, s =>
    (MaskGcnSampler.sample fs mp p g s.numpy).map (fun t => (t.1, { s with numpy := t.2 }))

/-- The sampled graph of a sampler invocation, `none` when it raised. -/
def sampledOf : Except PyErr (Graph × GlobalRandomState) → Option Graph
  | .ok t => some t.1
  | .error _ => none

namespace TrainMlp

/-- `set_seeds()` (src/train_mlp.py lines 61-66): seeds every global
generator with the hard-coded constant 42 (and pins torch to one thread),
regardless of the previous global state. -/
def set_seeds (s : GlobalRandomState) : GlobalRandomState :=
  seeded42

/-- `set_args_based_on_dataset` (src/train_mlp.py lines 26-32). -/
def set_args_based_on_dataset (args : Args) : Args :=
  if args.dataset = "ogbn-products" then { args with batch_size := 10000 } else args

/-- Python truthiness of an optional string (`None` and `""` are falsy). -/
def pyTruthyStr : Option String → Bool
  | none => false
  | some s => s ≠ ""

/-- The checkpoint-directory fallback in `main` (src/train_mlp.py lines
143-144): `if args.log_dir and not args.checkpoint_dir:
args.checkpoint_dir = args.log_dir`. -/
def resolveCheckpointDir (args : Args) : Args :=
  if pyTruthyStr args.log_dir && !pyTruthyStr args.checkpoint_dir then
    { args with checkpoint_dir := args.log_dir }
  else args

/-- The if/elif dispatch of `sample_graph` (src/train_mlp.py lines
69-86), in source order; `none` means no branch assigned the local
variable `sampler`. -/
def dispatchSampler (args : Args) (directed : Bool) : Option SamplerInstance :=
  if args.sampler = "full" then
    some (.fullSampler args.checkpoint_dir)
  else if args.sampler = "uniform_edge" then
    some (.uniformEdgeSampler args.prob args.checkpoint_dir directed)
  else if args.sampler = "uniform_node" then
    some (.uniformNodeSampler args.prob args.checkpoint_dir)
  else if args.sampler = "degree_node" then
    some (.degreeNodeSampler args.prob args.checkpoint_dir args.method)
  else if args.sampler = "degree_edge" then
    some (.degreeEdgeSampler args.prob args.checkpoint_dir args.method directed)
  else if args.sampler = "label_edge" then
    some (.labelEdgeSampler args.prob args.homophilic_prob args.checkpoint_dir directed)
  else if args.sampler = "forest_fire" then
    some (.forestFireSampler args.prob args.p_f args.checkpoint_dir)
  else if args.sampler = "mask_gcn" then
    some (.maskGcnSampler args.mask_path args.prob args.checkpoint_dir)
  else none

deriving instance DecidableEq for Except

/-- Everything observable about one call of the driver's `sample_graph`:
the outcome (normal return or raised exception), the dataset afterwards,
the global random state afterwards, the sampler instances constructed,
and the list of arguments `sampler.sample_graph` was invoked on. -/
structure DriverResult where
  outcome : Except PyErr Unit
  dataset : Dataset
  rng : GlobalRandomState
  constructed : List SamplerInstance
  sampleCalls : List Graph
deriving DecidableEq

/-- The driver's `sample_graph(dataset, args)` (src/train_mlp.py lines
68-89): dispatch on `args.sampler`; on a recognized name construct the
one matching sampler, call its `sample_graph` once on `dataset.graph`
and store the result via `dataset.set_sampled_graph`; on an unknown name
line 87 reads the never-assigned local `sampler` and raises
`UnboundLocalError`, leaving the dataset untouched. -/
def sample_graph (fs : String → Option (List Bool)) (dataset : Dataset)
    (args : Args) (s : GlobalRandomState) : DriverResult :=
  match dispatchSampler args dataset.directed with
  | none =>
    { outcome := .error (.unboundLocal "sampler")
      dataset := dataset
      rng := s
      constructed := []
      sampleCalls := [] }
  | some inst =>
    let res := SamplerInstance.sample fs inst dataset.graph s
    { outcome := res.map (fun _ => ())
      dataset := match res with
        | .ok t => dataset.set_sampled_graph t.1
        | .error _ => dataset
      rng := match res with
        | .ok t => t.2
        | .error _ => s
      constructed := [inst]
      sampleCalls := [dataset.graph] }

/-- The effective argument record at the moment `sample_graph` is called
from `main`: the parsed arguments after `set_args_based_on_dataset` and
the checkpoint-directory fallback. -/
def effectiveArgs (args : Args) : Args :=
  resolveCheckpointDir (set_args_based_on_dataset args)

/-- The prefix of `main` (src/train_mlp.py lines 138-158) up to and
including the sampling step, as a function of the initial ambient global
random state `s0`, the parsed arguments and the loaded dataset: `main`
first runs `set_seeds()`, then parses and adjusts the arguments and
loads the dataset (none of which touches the generators), then calls
`sample_graph`. -/
def mainSamplingPhase (fs : String → Option (List Bool)) (args : Args)
    (dataset : Dataset) (s0 : GlobalRandomState) : DriverResult :=
  sample_graph fs dataset (effectiveArgs args) (set_seeds s0)

/-- The statements of `main` relevant to ordering (src/train_mlp.py lines
138-158), in source order. -/
inductive MainStep where
  | setSeedsStep
  | parseArgumentsStep
  | setArgsBasedOnDatasetStep
  | resolveCheckpointDirStep
  | selectDeviceStep
  | loadDatasetStep
  | sampleGraphStep
deriving DecidableEq, BEq

/-- `main`'s statement order: `set_seeds()` on line 139 runs first,
before `parse_arguments()` on line 141. -/
def mainSteps : List MainStep :=
  [.setSeedsStep, .parseArgumentsStep, .setArgsBasedOnDatasetStep,
   .resolveCheckpointDirStep, .selectDeviceStep, .loadDatasetStep,
   .sampleGraphStep]

end TrainMlp

/-- The eight recognized sampler names, in dispatch order. -/
def recognizedSamplers : List String :=
  ["full", "uniform_edge", "uniform_node", "degree_node", "degree_edge",
   "label_edge", "forest_fire", "mask_gcn"]

/-- The spec's concrete 6-node ring (section 8), all nodes sharing label 0. -/
def ring6 : Graph :=
  { nodes := [0, 1, 2, 3, 4, 5]
    edges := [(0, 1), (1, 2), (2, 3), (3, 4), (4, 5), (5, 0)]
    directed := false
    labels := [(0, 0), (1, 0), (2, 0), (3, 0), (4, 0), (5, 0)]
    feats := [(0, 10), (1, 11), (2, 12), (3, 13), (4, 14), (5, 15)] }

/-- A concrete dataset around the ring. -/
def ringDataset : Dataset :=
  { graph := ring6, directed := false, sampledGraph := none }

/-- A file system with no readable files. -/
def emptyFs : String → Option (List Bool) := fun _ => none

/-- A one-node, zero-edge graph. -/
def oneNodeGraph : Graph :=
  { nodes := [0], edges := [], directed := false, labels := [(0, 0)], feats := [(0, 7)] }

/-! ## Dispatch helper lemmas (src/train_mlp.py lines 69-86) -/

theorem dispatch_full (args : Args) (dir : Bool) (h : args.sampler = "full") :
    TrainMlp.dispatchSampler args dir = some (.fullSampler args.checkpoint_dir) := by
  simp [TrainMlp.dispatchSampler, h]

theorem dispatch_uniform_edge (args : Args) (dir : Bool)
    (h : args.sampler = "uniform_edge") :
    TrainMlp.dispatchSampler args dir =
      some (.uniformEdgeSampler args.prob args.checkpoint_dir dir) := by
  simp [TrainMlp.dispatchSampler, h]

theorem dispatch_uniform_node (args : Args) (dir : Bool)
    (h : args.sampler = "uniform_node") :
    TrainMlp.dispatchSampler args dir =
      some (.uniformNodeSampler args.prob args.checkpoint_dir) := by
  simp [TrainMlp.dispatchSampler, h]

theorem dispatch_degree_node (args : Args) (dir : Bool)
    (h : args.sampler = "degree_node") :
    TrainMlp.dispatchSampler args dir =
      some (.degreeNodeSampler args.prob args.checkpoint_dir args.method) := by
  simp [TrainMlp.dispatchSampler, h]

theorem dispatch_degree_edge (args : Args) (dir : Bool)
    (h : args.sampler = "degree_edge") :
    TrainMlp.dispatchSampler args dir =
      some (.degreeEdgeSampler args.prob args.checkpoint_dir args.method dir) := by
  simp [TrainMlp.dispatchSampler, h]

theorem dispatch_label_edge (args : Args) (dir : Bool)
    (h : args.sampler = "label_edge") :
    TrainMlp.dispatchSampler args dir =
      some (.labelEdgeSampler args.prob args.homophilic_prob args.checkpoint_dir dir) := by
  simp [TrainMlp.dispatchSampler, h]

theorem dispatch_forest_fire (args : Args) (dir : Bool)
    (h : args.sampler = "forest_fire") :
    TrainMlp.dispatchSampler args dir =
      some (.forestFireSampler args.prob args.p_f args.checkpoint_dir) := by
  simp [TrainMlp.dispatchSampler, h]

theorem dispatch_mask_gcn (args : Args) (dir : Bool)
    (h : args.sampler = "mask_gcn") :
    TrainMlp.dispatchSampler args dir =
      some (.maskGcnSampler args.mask_path args.prob args.checkpoint_dir) := by
  simp [TrainMlp.dispatchSampler, h]

theorem dispatch_unknown (args : Args) (dir : Bool)
    (h : ¬ args.sampler ∈ recognizedSamplers) :
    TrainMlp.dispatchSampler args dir = none := by
  simp [recognizedSamplers, List.mem_cons, not_or] at h
  obtain ⟨h1, h2, h3, h4, h5, h6, h7, h8⟩ := h
  simp [TrainMlp.dispatchSampler, h1, h2, h3, h4, h5, h6, h7, h8]

/-- Shape of the driver result when a branch assigned `sampler`:
exactly that one instance is constructed and its `sample_graph` is
invoked exactly once, on `dataset.graph`. -/
theorem sample_graph_recognized (fs : String → Option (List Bool)) (d : Dataset)
    (args : Args) (s : GlobalRandomState) (inst : SamplerInstance)
    (h : TrainMlp.dispatchSampler args d.directed = some inst) :
    (TrainMlp.sample_graph fs d args s).constructed = [inst] ∧
      (TrainMlp.sample_graph fs d args s).sampleCalls = [d.graph] := by
  simp [TrainMlp.sample_graph, h]

/-- An argument record with an unknown sampler name. -/
def bogusArgs : Args :=
  { defaultArgs with sampler := "bogus" }

/-! ## Claims -/

/-- C1: for every recognized sampler name, the driver's `sample_graph`
constructs exactly one instance of the corresponding strategy class —
passing `p = args.prob`, `method`, `homophilic_prob`, `p_f`, `mask_path`,
the `directed` flag for the edge samplers and the cache directory
(`args.checkpoint_dir`) as that strategy's configuration — and calls its
`sample_graph` method exactly once, on `dataset.graph`. -/
theorem dispatch_constructs_one_instance_and_calls_once
    (fs : String → Option (List Bool)) (d : Dataset) (args : Args)
    (s : GlobalRandomState) :
    (args.sampler = "full" →
      (TrainMlp.sample_graph fs d args s).constructed =
        [.fullSampler args.checkpoint_dir] ∧
      (TrainMlp.sample_graph fs d args s).sampleCalls = [d.graph]) ∧
    (args.sampler = "uniform_edge" →
      (TrainMlp.sample_graph fs d args s).constructed =
        [.uniformEdgeSampler args.prob args.checkpoint_dir d.directed] ∧
      (TrainMlp.sample_graph fs d args s).sampleCalls = [d.graph]) ∧
    (args.sampler = "uniform_node" →
      (TrainMlp.sample_graph fs d args s).constructed =
        [.uniformNodeSampler args.prob args.checkpoint_dir] ∧
      (TrainMlp.sample_graph fs d args s).sampleCalls = [d.graph]) ∧
    (args.sampler = "degree_node" →
      (TrainMlp.sample_graph fs d args s).constructed =
        [.degreeNodeSampler args.prob args.checkpoint_dir args.method] ∧
      (TrainMlp.sample_graph fs d args s).sampleCalls = [d.graph]) ∧
    (args.sampler = "degree_edge" →
      (TrainMlp.sample_graph fs d args s).constructed =
        [.degreeEdgeSampler args.prob args.checkpoint_dir args.method d.directed] ∧
      (TrainMlp.sample_graph fs d args s).sampleCalls = [d.graph]) ∧
    (args.sampler = "label_edge" →
      (TrainMlp.sample_graph fs d args s).constructed =
        [.labelEdgeSampler args.prob args.homophilic_prob args.checkpoint_dir d.directed] ∧
      (TrainMlp.sample_graph fs d args s).sampleCalls = [d.graph]) ∧
    (args.sampler = "forest_fire" →
      (TrainMlp.sample_graph fs d args s).constructed =
        [.forestFireSampler args.prob args.p_f args.checkpoint_dir] ∧
      (TrainMlp.sample_graph fs d args s).sampleCalls = [d.graph]) ∧
    (args.sampler = "mask_gcn" →
      (TrainMlp.sample_graph fs d args s).constructed =
        [.maskGcnSampler args.mask_path args.prob args.checkpoint_dir] ∧
      (TrainMlp.sample_graph fs d args s).sampleCalls = [d.graph]) :=
  ⟨fun h => sample_graph_recognized fs d args s _ (dispatch_full args d.directed h),
   fun h => sample_graph_recognized fs d args s _ (dispatch_uniform_edge args d.directed h),
   fun h => sample_graph_recognized fs d args s _ (dispatch_uniform_node args d.directed h),
   fun h => sample_graph_recognized fs d args s _ (dispatch_degree_node args d.directed h),
   fun h => sample_graph_recognized fs d args s _ (dispatch_degree_edge args d.directed h),
   fun h => sample_graph_recognized fs d args s _ (dispatch_label_edge args d.directed h),
   fun h => sample_graph_recognized fs d args s _ (dispatch_forest_fire args d.directed h),
   fun h => sample_graph_recognized fs d args s _ (dispatch_mask_gcn args d.directed h)⟩

/-- C1 witness: the recognized name `"full"` (the default) constructs the
one `FullSampler` and invokes it once on the ring dataset's graph. -/
theorem dispatch_constructs_one_instance_and_calls_once_witness :
    defaultArgs.sampler = "full" ∧
    (TrainMlp.sample_graph emptyFs ringDataset defaultArgs seeded42).constructed =
      [.fullSampler none] ∧
    (TrainMlp.sample_graph emptyFs ringDataset defaultArgs seeded42).sampleCalls =
      [ringDataset.graph] :=
  ⟨rfl, (dispatch_constructs_one_instance_and_calls_once emptyFs ringDataset
    defaultArgs seeded42).1 rfl⟩

/-- C4 (code bug in `src/graphsampler/graph_sampler.py` lines 19-20): the
base `GraphSampler.sample_graph` body is `pass`, so it returns Python
`None` — never a graph — for every input graph, contradicting its own
docstring ("Returns: sampled_graph (dgl.Graph)") and the shared
`sample(graph) -> graph` contract. -/
theorem base_sample_graph_returns_none (g : Graph) :
    GraphSampler.sample_graph g = none :=
  rfl

/-- C7: with `args.sampler = "full"` the driver stores the original graph
unchanged — same node set, edge set, labels and features — and the global
random state is untouched. -/
theorem full_sampler_identity (fs : String → Option (List Bool)) (d : Dataset)
    (args : Args) (s : GlobalRandomState) (h : args.sampler = "full") :
    (TrainMlp.sample_graph fs d args s).outcome = .ok () ∧
    (TrainMlp.sample_graph fs d args s).dataset =
      { d with sampledGraph := some d.graph } ∧
    (TrainMlp.sample_graph fs d args s).rng = s := by
  simp [TrainMlp.sample_graph, dispatch_full args d.directed h,
    SamplerInstance.sample, FullSampler.sample, Dataset.set_sampled_graph,
    Except.map]

/-- C7 witness: the full sampler on the concrete ring dataset. -/
theorem full_sampler_identity_witness :
    defaultArgs.sampler = "full" ∧
    (TrainMlp.sample_graph emptyFs ringDataset defaultArgs seeded42).dataset =
      { ringDataset with sampledGraph := some ring6 } :=
  ⟨rfl, (full_sampler_identity emptyFs ringDataset defaultArgs seeded42 rfl).2.1⟩

/-- C9: on an unknown sampler name the driver raises (reading the
never-assigned local `sampler`) before any sampler instance is
constructed and before `set_sampled_graph` is called: no instance is
constructed, no sample call happens, and the dataset is returned exactly
as it was. -/
theorem unknown_sampler_atomic (fs : String → Option (List Bool)) (d : Dataset)
    (args : Args) (s : GlobalRandomState)
    (h : ¬ args.sampler ∈ recognizedSamplers) :
    (TrainMlp.sample_graph fs d args s).dataset = d ∧
    (TrainMlp.sample_graph fs d args s).constructed = [] ∧
    (TrainMlp.sample_graph fs d args s).sampleCalls = [] ∧
    (TrainMlp.sample_graph fs d args s).outcome =
      .error (.unboundLocal "sampler") := by
  simp [TrainMlp.sample_graph, dispatch_unknown args d.directed h]

/-- C9 witness: the unknown name `"bogus"` leaves the ring dataset
untouched. -/
theorem unknown_sampler_atomic_witness :
    ¬ bogusArgs.sampler ∈ recognizedSamplers ∧
    (TrainMlp.sample_graph emptyFs ringDataset bogusArgs seeded42).dataset =
      ringDataset ∧
    (TrainMlp.sample_graph emptyFs ringDataset bogusArgs seeded42).constructed = [] :=
  ⟨by decide,
   (unknown_sampler_atomic emptyFs ringDataset bogusArgs seeded42 (by decide)).1,
   (unknown_sampler_atomic emptyFs ringDataset bogusArgs seeded42 (by decide)).2.1⟩

/-- C2 counterexample: on the unknown name `"bogus"` the driver raises
`UnboundLocalError` — not a `ConfigurationError` as the claim states. -/
theorem unknown_sampler_error_kind_counterexample :
    (TrainMlp.sample_graph emptyFs ringDataset bogusArgs seeded42).outcome =
      .error (.unboundLocal "sampler") ∧
    isConfigurationError
      (TrainMlp.sample_graph emptyFs ringDataset bogusArgs seeded42).outcome =
      false := by
  decide

/-- C2 as amended: for every sampler name outside the recognized enum,
the driver's dispatch raises an `UnboundLocalError` (no branch ever
assigned the local `sampler`, so line 87 fails), the error propagates to
the caller, and no `FullSampler` (or any other sampler) is constructed as
a fallback. -/
theorem unknown_sampler_raises_no_fallback (fs : String → Option (List Bool))
    (d : Dataset) (args : Args) (s : GlobalRandomState)
    (h : ¬ args.sampler ∈ recognizedSamplers) :
    (TrainMlp.sample_graph fs d args s).outcome =
      .error (.unboundLocal "sampler") ∧
    (TrainMlp.sample_graph fs d args s).constructed = [] := by
  simp [TrainMlp.sample_graph, dispatch_unknown args d.directed h]

/-- C2 witness: the unknown name `"typo"`. -/
theorem unknown_sampler_raises_no_fallback_witness :
    ¬ ({ defaultArgs with sampler := "typo" } : Args).sampler ∈ recognizedSamplers ∧
    (TrainMlp.sample_graph emptyFs ringDataset
      { defaultArgs with sampler := "typo" } seeded42).outcome =
      .error (.unboundLocal "sampler") ∧
    (TrainMlp.sample_graph emptyFs ringDataset
      { defaultArgs with sampler := "typo" } seeded42).constructed = [] :=
  ⟨by decide,
   (unknown_sampler_raises_no_fallback emptyFs ringDataset
     { defaultArgs with sampler := "typo" } seeded42 (by decide)).1,
   (unknown_sampler_raises_no_fallback emptyFs ringDataset
     { defaultArgs with sampler := "typo" } seeded42 (by decide)).2⟩

/-- C3 counterexample: with the out-of-range probability `p = 3/2` the
driver raises no `ConfigurationError`; it constructs and invokes the
`UniformNodeSampler` with the out-of-range value and returns normally. -/
theorem out_of_range_prob_counterexample :
    (1 : ℚ) < mkRat 3 2 ∧
    (TrainMlp.sample_graph emptyFs ringDataset
      { defaultArgs with sampler := "uniform_node", prob := mkRat 3 2 }
      seeded42).constructed = [.uniformNodeSampler (mkRat 3 2) none] ∧
    isConfigurationError
      (TrainMlp.sample_graph emptyFs ringDataset
        { defaultArgs with sampler := "uniform_node", prob := mkRat 3 2 }
        seeded42).outcome = false := by
  refine ⟨by norm_num [Rat.mkRat_eq_div], ?_, ?_⟩ <;> decide

/-- C3 as amended: no configuration parameter is validated before
dispatch — `parse_arguments` only type-converts and the driver dispatches
on the name alone, so for every probability value whatsoever (inside or
outside `[0,1]`) the named sampler is constructed with that value and
invoked, and no error is raised. -/
theorem no_validation_before_dispatch (fs : String → Option (List Bool))
    (d : Dataset) (args : Args) (s : GlobalRandomState)
    (h : args.sampler = "uniform_node") :
    (TrainMlp.sample_graph fs d args s).constructed =
      [.uniformNodeSampler args.prob args.checkpoint_dir] ∧
    (TrainMlp.sample_graph fs d args s).outcome = .ok () := by
  simp [TrainMlp.sample_graph, dispatch_uniform_node args d.directed h,
    SamplerInstance.sample, Except.map]

/-- C3 witness: instantiated at the out-of-range probability `5/2`. -/
theorem no_validation_before_dispatch_witness :
    ({ defaultArgs with sampler := "uniform_node", prob := mkRat 5 2 } : Args).sampler =
      "uniform_node" ∧
    (TrainMlp.sample_graph emptyFs ringDataset
      { defaultArgs with sampler := "uniform_node", prob := mkRat 5 2 }
      seeded42).constructed = [.uniformNodeSampler (mkRat 5 2) none] ∧
    (TrainMlp.sample_graph emptyFs ringDataset
      { defaultArgs with sampler := "uniform_node", prob := mkRat 5 2 }
      seeded42).outcome = .ok () :=
  ⟨rfl, (no_validation_before_dispatch emptyFs ringDataset
    { defaultArgs with sampler := "uniform_node", prob := mkRat 5 2 }
    seeded42 rfl).1,
   (no_validation_before_dispatch emptyFs ringDataset
    { defaultArgs with sampler := "uniform_node", prob := mkRat 5 2 }
    seeded42 rfl).2⟩

/-- C5: sampling is deterministic given the fixed seed — two runs of the
sampling phase of `main` with identical arguments and identical dataset
produce identical results whatever the ambient random state of either
run was beforehand, because `set_seeds()` resets every generator to the
constant 42 before sampling. -/
theorem sampling_phase_deterministic (fs : String → Option (List Bool))
    (args : Args) (d : Dataset) (s1 s2 : GlobalRandomState) :
    TrainMlp.mainSamplingPhase fs args d s1 =
      TrainMlp.mainSamplingPhase fs args d s2 :=
  rfl

/-- C6 counterexample: a sampler invocation with all explicit arguments
fixed (same configuration, same graph) returns different sampled graphs
under two different ambient global random states — so the invocation's
randomness does NOT come from an explicitly passed generator. -/
theorem sampler_output_depends_on_ambient_state_counterexample :
    sampledOf (SamplerInstance.sample emptyFs
      (.uniformNodeSampler (mkRat 1 2) none) oneNodeGraph
      ⟨⟨0⟩, ⟨0⟩, ⟨0⟩, ⟨0⟩, 1⟩) ≠
    sampledOf (SamplerInstance.sample emptyFs
      (.uniformNodeSampler (mkRat 1 2) none) oneNodeGraph
      ⟨⟨999⟩, ⟨999⟩, ⟨999⟩, ⟨999⟩, 1⟩) := by
  decide

/-- C6 as amended: randomness is drawn from the ambient global generators
— no sampler constructor or invocation receives a generator argument, and
the sampled graph varies with the ambient global random state at call
time; reproducibility comes solely from `set_seeds()` resetting that
ambient state to the constant 42 at startup. -/
theorem randomness_is_ambient_global_state :
    (∃ s1 s2 : GlobalRandomState,
      sampledOf (SamplerInstance.sample emptyFs
        (.uniformNodeSampler (mkRat 1 2) none) oneNodeGraph s1) ≠
      sampledOf (SamplerInstance.sample emptyFs
        (.uniformNodeSampler (mkRat 1 2) none) oneNodeGraph s2)) ∧
    (∀ s : GlobalRandomState, TrainMlp.set_seeds s = seeded42) :=
  ⟨⟨⟨⟨2⟩, ⟨2⟩, ⟨2⟩, ⟨2⟩, 1⟩, ⟨⟨998⟩, ⟨998⟩, ⟨998⟩, ⟨998⟩, 1⟩, by decide⟩,
   fun _ => rfl⟩

/-- C8: the forest fire terminates after finitely many burn events —
their number is bounded by the total node count — and, whenever the node
list has no duplicates, no node is ever burned twice. -/
theorem forest_fire_bounded_and_no_revisit (p p_f : ℚ) (g : Graph) (r : Rng) :
    (ForestFireSampler.burnOrder p p_f g r).length ≤ g.nodes.length ∧
    (g.nodes.Nodup → (ForestFireSampler.burnOrder p p_f g r).Nodup) := by
  have hp := forestFireLoop_perm g p_f (quotaOf p g.nodes.length) g.nodes 0 r
  constructor
  · have hl := hp.length_eq
    simp only [List.length_append] at hl
    unfold ForestFireSampler.burnOrder ForestFireSampler.run
    omega
  · intro hnd
    have h2 := hp.symm.nodup hnd
    exact h2.of_append_right

/-- C8 witness: the forest fire on the concrete 6-ring. -/
theorem forest_fire_bounded_and_no_revisit_witness :
    ring6.nodes.Nodup ∧
    (ForestFireSampler.burnOrder (mkRat 1 2) (mkRat 1 2) ring6 ⟨0⟩).Nodup :=
  ⟨by decide,
   (forest_fire_bounded_and_no_revisit (mkRat 1 2) (mkRat 1 2) ring6 ⟨0⟩).2
     (by decide)⟩

/-- C10: the random seed is the hard-coded constant 42, applied to the
Python, NumPy and Torch (CPU and CUDA) generators by `set_seeds()`, which
`main` runs before `parse_arguments()`; consequently the global random
state handed to the sampling step is the constant seeded-42 state,
independent of the initial ambient state and of every configuration
parameter; and no seed occurs among the sampler constructor parameters —
the dispatched instance is a function of the configuration fields
alone. -/
theorem seed_hardcoded_42_before_parse_and_config_independent :
    (∀ s : GlobalRandomState, TrainMlp.set_seeds s = seeded42) ∧
    TrainMlp.mainSteps.indexOf TrainMlp.MainStep.setSeedsStep <
      TrainMlp.mainSteps.indexOf TrainMlp.MainStep.parseArgumentsStep ∧
    (∀ (fs : String → Option (List Bool)) (args : Args) (d : Dataset)
      (s0 : GlobalRandomState),
      TrainMlp.mainSamplingPhase fs args d s0 =
        TrainMlp.sample_graph fs d (TrainMlp.effectiveArgs args) seeded42) ∧
    (∀ (a1 a2 : Args) (dir : Bool),
      a1.sampler = a2.sampler → a1.prob = a2.prob → a1.method = a2.method →
      a1.homophilic_prob = a2.homophilic_prob → a1.p_f = a2.p_f →
      a1.mask_path = a2.mask_path → a1.checkpoint_dir = a2.checkpoint_dir →
      TrainMlp.dispatchSampler a1 dir = TrainMlp.dispatchSampler a2 dir) := by
  refine ⟨fun _ => rfl, by decide, fun _ _ _ _ => rfl, ?_⟩
  intro a1 a2 dir h1 h2 h3 h4 h5 h6 h7
  simp only [TrainMlp.dispatchSampler, h1, h2, h3, h4, h5, h6, h7]

/-- C10 witness: two argument records agreeing on the configuration
fields but differing elsewhere dispatch to the same instance. -/
theorem seed_hardcoded_42_witness :
    TrainMlp.dispatchSampler defaultArgs true =
      TrainMlp.dispatchSampler
        { defaultArgs with batch_size := 9999, num_epochs := 7, device := 3 } true :=
  seed_hardcoded_42_before_parse_and_config_independent.2.2.2 defaultArgs
    { defaultArgs with batch_size := 9999, num_epochs := 7, device := 3 } true
    rfl rfl rfl rfl rfl rfl rfl
